import Mathlib

/-!
Shallow embedding of `scaleway/resource_instance_volume.go` from
`nullabe/terraform-provider-scaleway`: the CRUD lifecycle of an instance
volume resource.  Remote API behaviour is an oracle (`Env`); each operation
returns the list of remote calls it issued (in order) together with the
resulting resource state and an optional diagnostic error, mirroring the
Go functions `resourceScalewayInstanceVolumeCreate / Read / Update / Delete`.
-/

/-- An error returned by a remote API call: either a 404 not-found
(`is404Error` in the source) or any other failure carrying a message. -/
inductive ApiError where
  | notFound
  | other (msg : String)
  deriving Repr, DecidableEq

/-- The message printed when a remote error is interpolated into a
wrapped error string (`fmt.Errorf("...: %s", err)`). -/
def ApiError.msg : ApiError → String
  | .notFound => "scaleway-sdk-go: http error 404"
  | .other m => m

/-- A remote volume as returned by `GetVolume` / `CreateVolume`
(the fields of `instance.Volume` this resource reads). -/
structure Volume where
  id : String
  name : String
  organization : String
  project : String
  volumeType : String
  /-- size in bytes (`scw.Size`) -/
  size : Nat
  /-- id of the attached server, if any (`Volume.Server`) -/
  server : Option String
  deriving Repr, DecidableEq

/-- `instance.VolumeVolumeTypeBSSD.String()`: the block-storage volume type. -/
def instanceVolumeVolumeTypeBSSD : String := "b_ssd"

/-- `instance.VolumeVolumeTypeLSSD.String()`: the local-storage volume type. -/
def instanceVolumeVolumeTypeLSSD : String := "l_ssd"

/-- Modelled from the spec: the repository constant `gb` (and `scw.GB`) is
defined outside the provided sources; the spec fixes the gigabyte-to-byte
conversion factor as 2^30. -/
def gb : Nat := 2 ^ 30

/-- Go's `uint64(n)` reinterpretation of an `int` value: reduction modulo
2^64 (a negative `int` becomes `2^64 + n`). -/
def uint64OfInt (n : Int) : Nat := (n % (2 ^ 64 : Int)).toNat

/-- Source line 92 / line 183: `scw.Size(uint64(size.(int)) * gb)` — the
gigabyte count is reinterpreted as `uint64` and multiplied by `gb` in
`uint64` arithmetic, wrapping modulo 2^64. -/
def volumeSizeInBytes (g : Int) : Nat := uint64OfInt g * gb % 2 ^ 64

/-- The `instance.CreateVolumeRequest` payload built by Create. -/
structure CreateVolumeRequest where
  zone : String
  name : String
  volumeType : String
  project : Option String
  /-- size in bytes, present only when `size_in_gb` was given -/
  size : Option Nat
  baseVolume : Option String
  baseSnapshot : Option String
  deriving Repr, DecidableEq

/-- One remote API call, as issued by this resource.  `withCtx` records
whether the call threaded the caller context (`scw.WithContext(ctx)`). -/
inductive RemoteCall where
  | createVolume (req : CreateVolumeRequest) (withCtx : Bool)
  | getVolume (zone volumeID : String) (withCtx : Bool)
  | updateVolumeName (zone volumeID name : String) (withCtx : Bool)
  | updateVolumeSize (zone volumeID : String) (size : Nat) (withCtx : Bool)
  | waitForVolume (zone volumeID : String) (withCtx : Bool)
  | deleteVolume (zone volumeID : String) (withCtx : Bool)
  deriving Repr, DecidableEq

/-- A diagnostic returned to the caller (`diag.Diagnostics`), tagged with
the spec's error taxonomy: fatal validation errors raised before any
remote mutation, wrapped remote errors, the retry-loop timeout, and a
malformed/empty stored identifier (`instanceAPIWithZoneAndID` failure). -/
inductive Diag where
  | validation (msg : String)
  | remote (msg : String)
  | timeout
  | invalidID
  deriving Repr, DecidableEq

/-- `true` exactly on a fatal validation diagnostic. -/
def isValidationError : Option Diag → Bool
  | some (.validation _) => true
  | _ => false

/-- Modelled from the spec: the composite identifier is a single string
encoding `{zone}/{remote-volume-id}`, reversible by the callers needing
zone and id separately (`newZonedIDString` / `instanceAPIWithZoneAndID`,
defined outside the provided sources).  It is represented here as the
reversible pair; absence (`d.SetId("")`) is `none`. -/
abbrev ZonedID : Type := String × String

/-- The resource state held in `*schema.ResourceData`: the stored
identifier plus the attributes this resource sets. -/
structure VolumeState where
  id : Option ZonedID
  name : String
  organizationId : String
  projectId : String
  zone : String
  volumeType : String
  /-- `size_in_gb` attribute (gigabytes) -/
  sizeInGb : Nat
  /-- `server_id` attribute, `none` when unattached -/
  serverId : Option String
  deriving Repr, DecidableEq

/-- The remote API oracle for one invocation: the outcome of each call the
resource may issue.  `getVolume` and `waitForVolume` are indexed by how
many calls of that kind were already issued in the invocation, so repeated
polls may observe different remote states. -/
structure Env where
  createVolume : Except ApiError Volume
  getVolume : Nat → Except ApiError Volume
  updateVolumeName : Except ApiError Unit
  updateVolumeSize : Except ApiError Unit
  waitForVolume : Nat → Except ApiError Unit
  deleteVolume : Except ApiError Unit

/-- Modelled from the spec: `expandOrGenerateString` (outside the provided
sources) returns the given name or a server-side-style generated name with
the given stem when the input is empty. -/
def expandOrGenerateString (s : String) (stem : String) : String :=
  if s = "" then stem ++ "-generated" else s

/-- Modelled from the spec: `expandStringPtr` (outside the provided
sources) turns an attribute into an optional value, omitted when empty. -/
def expandStringPtr (s : String) : Option String :=
  if s = "" then none else some s

/-- Modelled from the spec: `expandID` (outside the provided sources)
strips a locality qualifier, keeping the bare remote id. -/
def expandID (s : String) : String :=
  (s.splitOn "/").getLastD s

/-- The configuration attributes Create reads from `*schema.ResourceData`.
`sizeInGb`, `fromVolumeId`, `fromSnapshotId` are the `GetOk` views:
`none` when unset (or zero-valued).  `size_in_gb` is a `schema.TypeInt`,
a Go `int`: negative values are representable and not filtered. -/
structure CreateInput where
  name : String
  volumeType : String
  projectId : String
  sizeInGb : Option Int
  fromVolumeId : Option String
  fromSnapshotId : Option String
  zone : String
  deriving Repr, DecidableEq

/-- The state record before Create has stored an identifier. -/
def CreateInput.initialState (d : CreateInput) : VolumeState :=
  { id := none
    name := d.name
    organizationId := ""
    projectId := d.projectId
    zone := d.zone
    volumeType := d.volumeType
    sizeInGb := (d.sizeInGb.getD 0).toNat
    serverId := none }

/-- The `CreateVolumeRequest` Create builds (source lines 84-102): zone,
given-or-generated name, type, project, and — when `size_in_gb` was
given — the size `uint64(size.(int)) * gb` computed in wrapping `uint64`
arithmetic (line 92), plus the optional source volume / snapshot. -/
def createVolumeRequestOf (d : CreateInput) : CreateVolumeRequest :=
  { zone := d.zone
    name := expandOrGenerateString d.name "vol"
    volumeType := d.volumeType
    project := expandStringPtr d.projectId
    size := d.sizeInGb.map volumeSizeInBytes
    baseVolume := d.fromVolumeId.map expandID
    baseSnapshot := d.fromSnapshotId.map expandID }

/-- `resourceScalewayInstanceVolumeRead` (source lines 114-146): fetch the
volume by the stored identifier; a 404 clears the identifier and succeeds,
any other failure returns a wrapped error leaving the state untouched; on
success every observed attribute is copied from the remote volume. -/
def resourceScalewayInstanceVolumeRead (env : Env) (d : VolumeState) :
    List RemoteCall × VolumeState × Option Diag :=
  match d.id with
  | none => ([], d, some Diag.invalidID)
  | some (zone, vid) =>
    let call := RemoteCall.getVolume zone vid true
    match env.getVolume 0 with
    | .error ApiError.notFound => ([call], { d with id := none }, none)
    | .error (ApiError.other m) =>
        ([call], d, some (Diag.remote ("couldn't read volume: " ++ m)))
    | .ok v =>
        ([call],
         { d with
            name := v.name
            organizationId := v.organization
            projectId := v.project
            zone := zone
            volumeType := v.volumeType
            sizeInGb := v.size / gb
            serverId := v.server },
         none)

/-- `resourceScalewayInstanceVolumeCreate` (source lines 78-112): build the
creation request, issue `CreateVolume`; on failure return a wrapped error;
on success store the composite identifier and delegate to Read. -/
def resourceScalewayInstanceVolumeCreate (env : Env) (d : CreateInput) :
    List RemoteCall × VolumeState × Option Diag :=
  let req := createVolumeRequestOf d
  let call := RemoteCall.createVolume req true
  match env.createVolume with
  | .error e =>
      ([call], d.initialState,
       some (Diag.remote ("couldn't create volume: " ++ e.msg)))
  | .ok vol =>
      let s1 := { d.initialState with id := some ((d.zone, vol.id) : ZonedID) }
      let r := resourceScalewayInstanceVolumeRead env s1
      (call :: r.1, r.2.1, r.2.2)

/-- The inputs Update reads: the stored state (holding the new attribute
values) together with the old values reported by `d.GetChange`. -/
structure UpdateInput where
  state : VolumeState
  oldName : String
  oldSizeInGb : Nat
  deriving Repr, DecidableEq

/-- The `size_in_gb` branch of Update (source lines 167-200) followed by
the final Read: validate the type and direction of the size change, wait
for stability, resize, wait again, then Read.  `t` is the trace issued by
the name branch. -/
def updateSizeStep (env : Env) (d : UpdateInput) (zone vid : String)
    (t : List RemoteCall) : List RemoteCall × VolumeState × Option Diag :=
  if d.oldSizeInGb = d.state.sizeInGb then
    let r := resourceScalewayInstanceVolumeRead env d.state
    (t ++ r.1, r.2.1, r.2.2)
  else if d.state.volumeType = instanceVolumeVolumeTypeBSSD then
    if d.state.sizeInGb < d.oldSizeInGb then
      (t, d.state, some (Diag.validation "block volumes cannot be resized down"))
    else
      let w1 := RemoteCall.waitForVolume zone vid true
      match env.waitForVolume 0 with
      | .error e => (t ++ [w1], d.state, some (Diag.remote e.msg))
      | .ok _ =>
        let rc := RemoteCall.updateVolumeSize zone vid (d.state.sizeInGb * gb) true
        match env.updateVolumeSize with
        | .error e =>
            (t ++ [w1, rc], d.state,
             some (Diag.remote ("couldn't resize volume: " ++ e.msg)))
        | .ok _ =>
          let w2 := RemoteCall.waitForVolume zone vid true
          match env.waitForVolume 1 with
          | .error e => (t ++ [w1, rc, w2], d.state, some (Diag.remote e.msg))
          | .ok _ =>
            let r := resourceScalewayInstanceVolumeRead env d.state
            (t ++ [w1, rc, w2] ++ r.1, r.2.1, r.2.2)
  else
    (t, d.state, some (Diag.validation "only block volume can be resized"))

/-- `resourceScalewayInstanceVolumeUpdate` (source lines 148-203): rename
when the name changed (aborting on failure), then handle a `size_in_gb`
change, then Read. -/
def resourceScalewayInstanceVolumeUpdate (env : Env) (d : UpdateInput) :
    List RemoteCall × VolumeState × Option Diag :=
  match d.state.id with
  | none => ([], d.state, some Diag.invalidID)
  | some (zone, vid) =>
    if d.oldName = d.state.name then
      updateSizeStep env d zone vid []
    else
      let c := RemoteCall.updateVolumeName zone vid d.state.name true
      match env.updateVolumeName with
      | .error e =>
          ([c], d.state,
           some (Diag.remote ("couldn't update volume: " ++ e.msg)))
      | .ok _ => updateSizeStep env d zone vid [c]

/-- The retry loop body of Delete (source lines 211-237) under the
`resource.Retry` scheduler, with the deadline modelled as `fuel` remaining
iterations and `i` counting the `GetVolume` polls already made: fetch the
volume without the caller context; a 404 is success; any other fetch error
is non-retryable; an attached volume is a retryable condition consuming
one unit of fuel; otherwise issue `DeleteVolume` with the caller context.
Exhausted fuel is the scheduler's timeout. -/
def deleteRetry (env : Env) (zone vid : String) :
    Nat → Nat → List RemoteCall × Option Diag
  | 0, _ => ([], some Diag.timeout)
  | fuel + 1, i =>
    let c := RemoteCall.getVolume zone vid false
    match env.getVolume i with
    | .error ApiError.notFound => ([c], none)
    | .error (ApiError.other m) => ([c], some (Diag.remote m))
    | .ok v =>
      match v.server with
      | some _ =>
          let r := deleteRetry env zone vid fuel (i + 1)
          (c :: r.1, r.2)
      | none =>
          let dc := RemoteCall.deleteVolume zone vid true
          match env.deleteVolume with
          | .error e => ([c, dc], some (Diag.remote e.msg))
          | .ok _ => ([c, dc], none)

/-- The identifier Delete operates on. -/
structure DeleteInput where
  id : Option ZonedID
  deriving Repr, DecidableEq

/-- `resourceScalewayInstanceVolumeDelete` (source lines 205-242): parse
the stored identifier and run the bounded retry loop. -/
def resourceScalewayInstanceVolumeDelete (env : Env) (fuel : Nat)
    (d : DeleteInput) : List RemoteCall × Option Diag :=
  match d.id with
  | none => ([], some Diag.invalidID)
  | some (zone, vid) => deleteRetry env zone vid fuel 0

/-- The `j`-th `GetVolume` poll observes the volume attached to a server. -/
def attachedAt (env : Env) (j : Nat) : Prop :=
  ∃ v, env.getVolume j = Except.ok v ∧ v.server ≠ none

/-! ### Helper lemmas about the Delete retry loop -/

theorem deleteRetry_attached_step (env : Env) (zone vid : String) (fuel i : Nat)
    (v : Volume) (s : String) (hv : env.getVolume i = Except.ok v)
    (hs : v.server = some s) :
    deleteRetry env zone vid (fuel + 1) i =
      (RemoteCall.getVolume zone vid false ::
         (deleteRetry env zone vid fuel (i + 1)).1,
       (deleteRetry env zone vid fuel (i + 1)).2) := by
  simp [deleteRetry, hv, hs]

theorem deleteRetry_notFound_step (env : Env) (zone vid : String) (fuel i : Nat)
    (hv : env.getVolume i = Except.error ApiError.notFound) :
    deleteRetry env zone vid (fuel + 1) i =
      ([RemoteCall.getVolume zone vid false], none) := by
  simp [deleteRetry, hv]

theorem deleteRetry_fatal_step (env : Env) (zone vid : String) (fuel i : Nat)
    (m : String) (hv : env.getVolume i = Except.error (ApiError.other m)) :
    deleteRetry env zone vid (fuel + 1) i =
      ([RemoteCall.getVolume zone vid false], some (Diag.remote m)) := by
  simp [deleteRetry, hv]

theorem deleteRetry_deleteVolume_mem (env : Env) (zone vid : String) (fuel : Nat) :
    ∀ (i : Nat) (z w : String) (b : Bool),
      RemoteCall.deleteVolume z w b ∈ (deleteRetry env zone vid fuel i).1 →
      ∃ k v, env.getVolume k = Except.ok v ∧ v.server = none := by
  induction fuel with
  | zero => intro i z w b h; simp [deleteRetry] at h
  | succ fuel ih =>
    intro i z w b h
    cases hv : env.getVolume i with
    | error e =>
      cases e with
      | notFound => rw [deleteRetry_notFound_step env zone vid fuel i hv] at h; simp at h
      | other m => rw [deleteRetry_fatal_step env zone vid fuel i m hv] at h; simp at h
    | ok v =>
      cases hs : v.server with
      | some s =>
        rw [deleteRetry_attached_step env zone vid fuel i v s hv hs] at h
        rcases List.mem_cons.mp h with h | h
        · simp at h
        · exact ih (i + 1) z w b h
      | none =>
        refine ⟨i, v, hv, hs⟩

theorem deleteRetry_timeout_of_attached (env : Env) (zone vid : String)
    (fuel : Nat) (hAll : ∀ j, attachedAt env j) :
    ∀ i, (deleteRetry env zone vid fuel i).2 = some Diag.timeout := by
  induction fuel with
  | zero => intro i; simp [deleteRetry]
  | succ fuel ih =>
    intro i
    obtain ⟨v, hv, hs⟩ := hAll i
    obtain ⟨s, hs⟩ := Option.ne_none_iff_exists'.mp hs
    rw [deleteRetry_attached_step env zone vid fuel i v s hv hs]
    exact ih (i + 1)

/-- C1: during Delete, the `DeleteVolume` remote call is never issued while
the volume is attached — a delete in the issued trace implies some fetch
returned the volume with no attached server — and when every fetch shows
the volume still attached, exhausting the deadline makes Delete return the
timeout error. -/
theorem delete_waits_for_detach_and_times_out (env : Env) (d : DeleteInput)
    (zone vid : String) (fuel : Nat)
    (hid : d.id = some ((zone, vid) : ZonedID)) :
    (∀ z w b,
        RemoteCall.deleteVolume z w b ∈
            (resourceScalewayInstanceVolumeDelete env fuel d).1 →
        ∃ k v, env.getVolume k = Except.ok v ∧ v.server = none) ∧
    ((∀ j, attachedAt env j) →
        (resourceScalewayInstanceVolumeDelete env fuel d).2 =
          some Diag.timeout) := by
  constructor
  · intro z w b h
    rw [resourceScalewayInstanceVolumeDelete, hid] at h
    exact deleteRetry_deleteVolume_mem env zone vid fuel 0 z w b h
  · intro hAll
    rw [resourceScalewayInstanceVolumeDelete, hid]
    exact deleteRetry_timeout_of_attached env zone vid fuel hAll 0

/-! ### Concrete fixtures for witnesses and counterexamples -/

def volAttached : Volume :=
  { id := "vid1", name := "vol-a", organization := "org1", project := "proj1"
    volumeType := "b_ssd", size := 10 * gb, server := some "srv1" }

def volDetached : Volume :=
  { id := "vid1", name := "vol-a", organization := "org1", project := "proj1"
    volumeType := "b_ssd", size := 10 * gb, server := none }

def volCreated : Volume :=
  { id := "vid1", name := "create-resp-name", organization := "create-org"
    project := "create-proj", volumeType := "b_ssd", size := 99 * gb
    server := none }

def baseEnv : Env :=
  { createVolume := Except.ok volCreated
    getVolume := fun _ => Except.ok volDetached
    updateVolumeName := Except.ok ()
    updateVolumeSize := Except.ok ()
    waitForVolume := fun _ => Except.ok ()
    deleteVolume := Except.ok () }

def envAttachedAll : Env := { baseEnv with getVolume := fun _ => Except.ok volAttached }

def envGetNotFound : Env :=
  { baseEnv with getVolume := fun _ => Except.error ApiError.notFound }

def envGetFatal : Env :=
  { baseEnv with getVolume := fun _ => Except.error (ApiError.other "boom") }

def dDel : DeleteInput := { id := some (("fr-par-1", "vid1") : ZonedID) }

theorem delete_waits_for_detach_and_times_out_witness :
    (resourceScalewayInstanceVolumeDelete envAttachedAll 2 dDel).2 =
      some Diag.timeout :=
  (delete_waits_for_detach_and_times_out envAttachedAll dDel "fr-par-1" "vid1" 2
      rfl).2 (fun _ => ⟨volAttached, rfl, by decide⟩)

theorem deleteRetry_skip (env : Env) (zone vid : String) (k : Nat) :
    ∀ (fuel i : Nat), (∀ j, j < k → attachedAt env (i + j)) →
      deleteRetry env zone vid (k + fuel) i =
        (List.replicate k (RemoteCall.getVolume zone vid false) ++
           (deleteRetry env zone vid fuel (i + k)).1,
         (deleteRetry env zone vid fuel (i + k)).2) := by
  induction k with
  | zero => intro fuel i _; simp
  | succ k ih =>
    intro fuel i h
    obtain ⟨v, hv, hs⟩ := h 0 (Nat.succ_pos k)
    rw [Nat.add_zero] at hv
    obtain ⟨s, hs⟩ := Option.ne_none_iff_exists'.mp hs
    have hstep : (k + 1) + fuel = (k + fuel) + 1 := by omega
    rw [hstep, deleteRetry_attached_step env zone vid (k + fuel) i v s hv hs]
    have h' : ∀ j, j < k → attachedAt env ((i + 1) + j) := by
      intro j hj
      have hj1 := h (j + 1) (by omega)
      have e : i + (j + 1) = (i + 1) + j := by omega
      rwa [e] at hj1
    rw [ih fuel (i + 1) h']
    have e2 : (i + 1) + k = i + (k + 1) := by omega
    simp [e2, List.replicate_succ]

/-- C5: in Delete's polling loop, a fetch reporting not-found makes Delete
succeed without ever issuing `DeleteVolume` (idempotent delete), while any
other fetch failure is non-retryable: the loop aborts on the spot with
that error, issuing no further call. -/
theorem delete_notfound_idempotent_fatal_aborts (env : Env) (d : DeleteInput)
    (zone vid : String) (k fuel : Nat)
    (hid : d.id = some ((zone, vid) : ZonedID))
    (hAtt : ∀ j, j < k → attachedAt env j) (hk : k < fuel) :
    (env.getVolume k = Except.error ApiError.notFound →
        (resourceScalewayInstanceVolumeDelete env fuel d).2 = none ∧
        ∀ z w b, RemoteCall.deleteVolume z w b ∉
            (resourceScalewayInstanceVolumeDelete env fuel d).1) ∧
    (∀ m, env.getVolume k = Except.error (ApiError.other m) →
        (resourceScalewayInstanceVolumeDelete env fuel d).2 =
            some (Diag.remote m) ∧
        (resourceScalewayInstanceVolumeDelete env fuel d).1.length = k + 1) := by
  obtain ⟨f, rfl⟩ : ∃ f, fuel = k + (f + 1) := ⟨fuel - k - 1, by omega⟩
  have hAtt' : ∀ j, j < k → attachedAt env (0 + j) := by
    intro j hj; rw [Nat.zero_add]; exact hAtt j hj
  have hskip := deleteRetry_skip env zone vid k (f + 1) 0 hAtt'
  rw [Nat.zero_add] at hskip
  constructor
  · intro hnf
    simp only [resourceScalewayInstanceVolumeDelete, hid]
    rw [hskip, deleteRetry_notFound_step env zone vid f k hnf]
    constructor
    · rfl
    · intro z w b hmem
      rcases List.mem_append.mp hmem with hmem | hmem
      · exact absurd (List.eq_of_mem_replicate hmem) (by simp)
      · simp at hmem
  · intro m hfat
    simp only [resourceScalewayInstanceVolumeDelete, hid]
    rw [hskip, deleteRetry_fatal_step env zone vid f k m hfat]
    exact ⟨rfl, by simp⟩

theorem delete_notfound_idempotent_fatal_aborts_witness :
    (resourceScalewayInstanceVolumeDelete envGetNotFound 1 dDel).2 = none :=
  ((delete_notfound_idempotent_fatal_aborts envGetNotFound dDel "fr-par-1"
      "vid1" 0 1 rfl (fun j hj => absurd hj (Nat.not_lt_zero j))
      (by decide)).1 rfl).1

theorem deleteRetry_ctx_flags (env : Env) (zone vid : String) (fuel : Nat) :
    ∀ i,
      (∀ z w b, RemoteCall.getVolume z w b ∈
          (deleteRetry env zone vid fuel i).1 → b = false) ∧
      (∀ z w b, RemoteCall.deleteVolume z w b ∈
          (deleteRetry env zone vid fuel i).1 → b = true) := by
  induction fuel with
  | zero => intro i; constructor <;> (intro z w b h; simp [deleteRetry] at h)
  | succ fuel ih =>
    intro i
    cases hv : env.getVolume i with
    | error e =>
      cases e with
      | notFound =>
        rw [deleteRetry_notFound_step env zone vid fuel i hv]
        constructor
        · intro z w b h
          simp at h
          exact h.2.2
        · intro z w b h
          simp at h
      | other m =>
        rw [deleteRetry_fatal_step env zone vid fuel i m hv]
        constructor
        · intro z w b h
          simp at h
          exact h.2.2
        · intro z w b h
          simp at h
    | ok v =>
      cases hs : v.server with
      | some s =>
        rw [deleteRetry_attached_step env zone vid fuel i v s hv hs]
        constructor
        · intro z w b h
          rcases List.mem_cons.mp h with h | h
          · cases h; rfl
          · exact (ih (i + 1)).1 z w b h
        · intro z w b h
          rcases List.mem_cons.mp h with h | h
          · simp at h
          · exact (ih (i + 1)).2 z w b h
      | none =>
        cases hd : env.deleteVolume with
        | error e =>
          constructor <;>
            (intro z w b h
             simp [deleteRetry, hv, hs, hd] at h
             rcases h with h | h
             all_goals simp_all)
        | ok u =>
          constructor <;>
            (intro z w b h
             simp [deleteRetry, hv, hs, hd] at h
             rcases h with h | h
             all_goals simp_all)

/-- C9: inside Delete's polling loop, every `GetVolume` fetch is issued
without the caller's context while every `DeleteVolume` call is issued
with it. -/
theorem delete_get_without_ctx_delete_with_ctx (env : Env) (fuel : Nat)
    (d : DeleteInput) :
    (∀ z w b, RemoteCall.getVolume z w b ∈
        (resourceScalewayInstanceVolumeDelete env fuel d).1 → b = false) ∧
    (∀ z w b, RemoteCall.deleteVolume z w b ∈
        (resourceScalewayInstanceVolumeDelete env fuel d).1 → b = true) := by
  obtain ⟨id?⟩ := d
  cases id? with
  | none =>
    constructor <;> (intro z w b h; simp [resourceScalewayInstanceVolumeDelete] at h)
  | some p =>
    obtain ⟨zone, vid⟩ := p
    rw [resourceScalewayInstanceVolumeDelete]
    exact deleteRetry_ctx_flags env zone vid fuel 0

theorem delete_get_without_ctx_delete_with_ctx_witness :
    false = false ∧ true = true :=
  ⟨(delete_get_without_ctx_delete_with_ctx baseEnv 1 dDel).1 "fr-par-1" "vid1"
      false (by decide),
   (delete_get_without_ctx_delete_with_ctx baseEnv 1 dDel).2 "fr-par-1" "vid1"
      true (by decide)⟩

/-! ### Read -/

theorem read_trace_single_get (env : Env) (d : VolumeState) (zone vid : String)
    (hid : d.id = some ((zone, vid) : ZonedID)) :
    (resourceScalewayInstanceVolumeRead env d).1 =
      [RemoteCall.getVolume zone vid true] := by
  cases hg : env.getVolume 0 with
  | error e => cases e <;> simp [resourceScalewayInstanceVolumeRead, hid, hg]
  | ok v => simp [resourceScalewayInstanceVolumeRead, hid, hg]

/-- C4: Read turns a remote not-found into success with the stored
identifier cleared (an absent result), while any other `GetVolume` failure
returns a wrapped error and leaves the state — in particular the
identifier — untouched. -/
theorem read_notfound_clears_id_other_error_keeps (env : Env) (d : VolumeState)
    (zone vid : String) (hid : d.id = some ((zone, vid) : ZonedID)) :
    (env.getVolume 0 = Except.error ApiError.notFound →
        (resourceScalewayInstanceVolumeRead env d).2.1.id = none ∧
        (resourceScalewayInstanceVolumeRead env d).2.2 = none) ∧
    (∀ m, env.getVolume 0 = Except.error (ApiError.other m) →
        (resourceScalewayInstanceVolumeRead env d).2.2 =
            some (Diag.remote ("couldn't read volume: " ++ m)) ∧
        (resourceScalewayInstanceVolumeRead env d).2.1 = d) := by
  constructor
  · intro hg
    simp [resourceScalewayInstanceVolumeRead, hid, hg]
  · intro m hg
    simp [resourceScalewayInstanceVolumeRead, hid, hg]

def sBase : VolumeState :=
  { id := some (("fr-par-1", "vid1") : ZonedID), name := "vol-a"
    organizationId := "org1", projectId := "proj1", zone := "fr-par-1"
    volumeType := "b_ssd", sizeInGb := 10, serverId := none }

theorem read_notfound_clears_id_other_error_keeps_witness :
    (resourceScalewayInstanceVolumeRead envGetNotFound sBase).2.1.id = none ∧
    (resourceScalewayInstanceVolumeRead envGetNotFound sBase).2.2 = none :=
  (read_notfound_clears_id_other_error_keeps envGetNotFound sBase "fr-par-1"
      "vid1" rfl).1 rfl

/-! ### Create -/

theorem volumeSizeInBytes_of_no_wrap (g : Nat) (h : g * 2 ^ 30 < 2 ^ 64) :
    volumeSizeInBytes (g : Int) = g * 2 ^ 30 := by
  have hg : g < 2 ^ 64 := by
    calc g = g * 1 := (Nat.mul_one g).symm
    _ ≤ g * 2 ^ 30 := Nat.mul_le_mul_left g (by norm_num)
    _ < 2 ^ 64 := h
  have h1 : uint64OfInt (g : Int) = g := by
    rw [uint64OfInt,
      Int.emod_eq_of_lt (by exact_mod_cast Nat.zero_le g)
        (by exact_mod_cast hg)]
    simp
  rw [volumeSizeInBytes, h1, gb]
  exact Nat.mod_eq_of_lt h

def dCreate : CreateInput :=
  { name := "vol-a", volumeType := "b_ssd", projectId := "proj1"
    sizeInGb := some 10, fromVolumeId := none, fromSnapshotId := none
    zone := "fr-par-1" }

def dHugeSize : CreateInput := { dCreate with sizeInGb := some ((2 : Int) ^ 34) }

/-- C3 counterexample: with `size_in_gb = 2^34` the `uint64` product
`uint64(size.(int)) * gb` of source line 92 wraps modulo 2^64, so the
size transmitted in the creation request is 0, not the given gigabyte
value multiplied by 2^30. -/
theorem create_size_gb_to_bytes_cex :
    (resourceScalewayInstanceVolumeCreate baseEnv dHugeSize).1.head? =
        some (RemoteCall.createVolume (createVolumeRequestOf dHugeSize)
          true) ∧
    (createVolumeRequestOf dHugeSize).size = some 0 ∧
    ¬ (createVolumeRequestOf dHugeSize).size = some (2 ^ 34 * 2 ^ 30) := by
  decide

/-- C3 (amended): when `size_in_gb` is given with a non-negative value `g`
whose byte conversion does not overflow `uint64` (`g * 2^30 < 2^64`), the
size transmitted in the remote creation request equals `g` multiplied by
2^30; in general the transmitted size is `uint64(g) * 2^30` reduced
modulo 2^64. -/
theorem create_size_gb_to_bytes (env : Env) (d : CreateInput) (g : Nat)
    (h : d.sizeInGb = some (g : Int)) (hbound : g * 2 ^ 30 < 2 ^ 64) :
    ∃ req, (resourceScalewayInstanceVolumeCreate env d).1.head? =
        some (RemoteCall.createVolume req true) ∧
      req.size = some (g * 2 ^ 30) := by
  refine ⟨createVolumeRequestOf d, ?_, ?_⟩
  · cases hc : env.createVolume <;>
      simp [resourceScalewayInstanceVolumeCreate, hc]
  · simp [createVolumeRequestOf, h, volumeSizeInBytes_of_no_wrap g hbound]

theorem create_size_gb_to_bytes_witness :
    ∃ req, (resourceScalewayInstanceVolumeCreate baseEnv dCreate).1.head? =
        some (RemoteCall.createVolume req true) ∧
      req.size = some (10 * 2 ^ 30) :=
  create_size_gb_to_bytes baseEnv dCreate 10 rfl (by norm_num)

/-- C8: when the remote creation succeeds, Create stores the composite
identifier (zone paired with the remote volume id) and immediately invokes
Read: the issued trace is exactly the creation call followed by Read's
fetch, and every observed field of the returned state comes from the
fetched volume `w`, not from the creation response `vol`. -/
theorem create_sets_zoned_id_then_reads (env : Env) (d : CreateInput)
    (vol w : Volume) (hc : env.createVolume = Except.ok vol)
    (hg : env.getVolume 0 = Except.ok w) :
    resourceScalewayInstanceVolumeCreate env d =
      ([RemoteCall.createVolume (createVolumeRequestOf d) true,
        RemoteCall.getVolume d.zone vol.id true],
       { id := some ((d.zone, vol.id) : ZonedID)
         name := w.name
         organizationId := w.organization
         projectId := w.project
         zone := d.zone
         volumeType := w.volumeType
         sizeInGb := w.size / gb
         serverId := w.server },
       none) := by
  simp [resourceScalewayInstanceVolumeCreate, hc,
        resourceScalewayInstanceVolumeRead, hg, CreateInput.initialState]

theorem create_sets_zoned_id_then_reads_witness :
    resourceScalewayInstanceVolumeCreate baseEnv dCreate =
      ([RemoteCall.createVolume (createVolumeRequestOf dCreate) true,
        RemoteCall.getVolume dCreate.zone volCreated.id true],
       { id := some ((dCreate.zone, volCreated.id) : ZonedID)
         name := volDetached.name
         organizationId := volDetached.organization
         projectId := volDetached.project
         zone := dCreate.zone
         volumeType := volDetached.volumeType
         sizeInGb := volDetached.size / gb
         serverId := volDetached.server },
       none) :=
  create_sets_zoned_id_then_reads baseEnv dCreate volCreated volDetached rfl rfl

/-! ### Update -/

def downsizeRenameInput : UpdateInput :=
  { state := { sBase with name := "renamed", sizeInGb := 5 }
    oldName := "vol-a", oldSizeInGb := 10 }

/-- C2 counterexample: an Update invocation where `size_in_gb` shrinks
from 10 to 5 but the name also changed; the rename remote call is issued
before the validation error is returned, so the invocation does not issue
zero remote calls. -/
theorem update_downsize_zero_calls_cex :
    downsizeRenameInput.state.sizeInGb < downsizeRenameInput.oldSizeInGb ∧
    (resourceScalewayInstanceVolumeUpdate baseEnv downsizeRenameInput).2.2 =
        some (Diag.validation "block volumes cannot be resized down") ∧
    (resourceScalewayInstanceVolumeUpdate baseEnv downsizeRenameInput).1 ≠
        [] := by
  decide

/-- C2 (amended): when `size_in_gb` strictly decreases and the name is
unchanged, Update fails with a validation error and issues zero remote
calls before returning. -/
theorem update_downsize_validation_no_calls (env : Env) (d : UpdateInput)
    (zone vid : String) (hid : d.state.id = some ((zone, vid) : ZonedID))
    (hn : d.oldName = d.state.name) (hlt : d.state.sizeInGb < d.oldSizeInGb) :
    (∃ m, (resourceScalewayInstanceVolumeUpdate env d).2.2 =
        some (Diag.validation m)) ∧
    (resourceScalewayInstanceVolumeUpdate env d).1 = [] := by
  have hne : ¬ (d.oldSizeInGb = d.state.sizeInGb) := by omega
  simp only [resourceScalewayInstanceVolumeUpdate, hid, if_pos hn]
  by_cases ht : d.state.volumeType = instanceVolumeVolumeTypeBSSD
  · simp only [updateSizeStep, if_neg hne, if_pos ht, if_pos hlt]
    exact ⟨⟨"block volumes cannot be resized down", by simp⟩, by simp⟩
  · simp only [updateSizeStep, if_neg hne, if_neg ht]
    exact ⟨⟨"only block volume can be resized", by simp⟩, by simp⟩

def downsizeNoRenameInput : UpdateInput :=
  { state := { sBase with sizeInGb := 5 }
    oldName := "vol-a", oldSizeInGb := 10 }

theorem update_downsize_validation_no_calls_witness :
    (∃ m, (resourceScalewayInstanceVolumeUpdate baseEnv
        downsizeNoRenameInput).2.2 = some (Diag.validation m)) ∧
    (resourceScalewayInstanceVolumeUpdate baseEnv downsizeNoRenameInput).1 =
        [] :=
  update_downsize_validation_no_calls baseEnv downsizeNoRenameInput "fr-par-1"
    "vid1" rfl rfl (by decide)

def envRenameFail : Env :=
  { baseEnv with updateVolumeName := Except.error (ApiError.other "boom") }

def nonblockRenameInput : UpdateInput :=
  { state := { sBase with
                name := "renamed"
                volumeType := "l_ssd"
                sizeInGb := 20 }
    oldName := "vol-a"
    oldSizeInGb := 10 }

/-- C7 counterexample: an Update invocation where `size_in_gb` changed on
a local-storage volume but the name also changed and the rename remote
call fails; Update returns the wrapped remote rename error, not a
validation error. -/
theorem update_nonblock_resize_validation_cex :
    nonblockRenameInput.oldSizeInGb ≠ nonblockRenameInput.state.sizeInGb ∧
    nonblockRenameInput.state.volumeType ≠ instanceVolumeVolumeTypeBSSD ∧
    (resourceScalewayInstanceVolumeUpdate envRenameFail
        nonblockRenameInput).2.2 =
      some (Diag.remote "couldn't update volume: boom") ∧
    isValidationError (resourceScalewayInstanceVolumeUpdate envRenameFail
        nonblockRenameInput).2.2 = false := by
  decide

/-- C7 (amended): when `size_in_gb` changed and the volume's type is not
block-storage, Update never issues a resize-related remote call (no
`WaitForVolume`, no size `UpdateVolume`); and whenever the rename step
does not abort first (name unchanged, or the rename succeeds), it fails
with the validation error "only block volume can be resized". -/
theorem update_nonblock_resize_no_resize_calls (env : Env) (d : UpdateInput)
    (zone vid : String) (hid : d.state.id = some ((zone, vid) : ZonedID))
    (hs : d.oldSizeInGb ≠ d.state.sizeInGb)
    (ht : d.state.volumeType ≠ instanceVolumeVolumeTypeBSSD) :
    (∀ z w b, RemoteCall.waitForVolume z w b ∉
        (resourceScalewayInstanceVolumeUpdate env d).1) ∧
    (∀ z w s b, RemoteCall.updateVolumeSize z w s b ∉
        (resourceScalewayInstanceVolumeUpdate env d).1) ∧
    ((d.oldName = d.state.name ∨ env.updateVolumeName = Except.ok ()) →
        (resourceScalewayInstanceVolumeUpdate env d).2.2 =
          some (Diag.validation "only block volume can be resized")) := by
  simp only [resourceScalewayInstanceVolumeUpdate, hid]
  by_cases hn : d.oldName = d.state.name
  · simp only [if_pos hn, updateSizeStep, if_neg hs, if_neg ht]
    refine ⟨?_, ?_, fun _ => by simp⟩
    · intro z w b h; simp at h
    · intro z w s b h; simp at h
  · simp only [if_neg hn]
    cases hr : env.updateVolumeName with
    | error e =>
      simp only [hr]
      refine ⟨?_, ?_, ?_⟩
      · intro z w b h; simp at h
      · intro z w s b h; simp at h
      · intro hname
        rcases hname with hname | hname
        · exact absurd hname hn
        · exact Except.noConfusion hname
    | ok u =>
      simp only [hr, updateSizeStep, if_neg hs, if_neg ht]
      refine ⟨?_, ?_, fun _ => by simp⟩
      · intro z w b h; simp at h
      · intro z w s b h; simp at h

def nonblockNoRenameInput : UpdateInput :=
  { state := { sBase with volumeType := "l_ssd", sizeInGb := 20 }
    oldName := "vol-a", oldSizeInGb := 10 }

theorem update_nonblock_resize_no_resize_calls_witness :
    (resourceScalewayInstanceVolumeUpdate baseEnv nonblockNoRenameInput).2.2 =
      some (Diag.validation "only block volume can be resized") :=
  (update_nonblock_resize_no_resize_calls baseEnv nonblockNoRenameInput
      "fr-par-1" "vid1" rfl (by decide) (by decide)).2.2 (Or.inl rfl)

/-- C6: on a permitted size increase, if the first wait-for-stable step
fails then Update returns that error without issuing the resize request
and without performing the final Read: no size `UpdateVolume` and no
`GetVolume` appears in the issued trace, and the stored state is returned
unchanged. -/
theorem update_wait_failure_aborts_before_resize (env : Env) (d : UpdateInput)
    (zone vid : String) (e : ApiError)
    (hid : d.state.id = some ((zone, vid) : ZonedID))
    (hs : d.oldSizeInGb ≠ d.state.sizeInGb)
    (ht : d.state.volumeType = instanceVolumeVolumeTypeBSSD)
    (hup : d.oldSizeInGb ≤ d.state.sizeInGb)
    (hname : d.oldName = d.state.name ∨ env.updateVolumeName = Except.ok ())
    (hw : env.waitForVolume 0 = Except.error e) :
    (resourceScalewayInstanceVolumeUpdate env d).2.2 =
        some (Diag.remote e.msg) ∧
    (∀ z w s b, RemoteCall.updateVolumeSize z w s b ∉
        (resourceScalewayInstanceVolumeUpdate env d).1) ∧
    (∀ z w b, RemoteCall.getVolume z w b ∉
        (resourceScalewayInstanceVolumeUpdate env d).1) ∧
    (resourceScalewayInstanceVolumeUpdate env d).2.1 = d.state := by
  have hnotlt : ¬ (d.state.sizeInGb < d.oldSizeInGb) := by omega
  simp only [resourceScalewayInstanceVolumeUpdate, hid]
  by_cases hn : d.oldName = d.state.name
  · simp only [if_pos hn, updateSizeStep, if_neg hs, if_pos ht, if_neg hnotlt,
      hw]
    refine ⟨by simp, ?_, ?_, by simp⟩
    · intro z w s b h; simp at h
    · intro z w b h; simp at h
  · rcases hname with hname | hr
    · exact absurd hname hn
    · simp only [if_neg hn, hr, updateSizeStep, if_neg hs, if_pos ht,
        if_neg hnotlt, hw]
      refine ⟨by simp, ?_, ?_, by simp⟩
      · intro z w s b h; simp at h
      · intro z w b h; simp at h

def envWaitFail : Env :=
  { baseEnv with
      waitForVolume := fun _ => Except.error (ApiError.other "wait failed") }

def upsizeNoRenameInput : UpdateInput :=
  { state := { sBase with sizeInGb := 20 }
    oldName := "vol-a"
    oldSizeInGb := 10 }

theorem update_wait_failure_aborts_before_resize_witness :
    (resourceScalewayInstanceVolumeUpdate envWaitFail
        upsizeNoRenameInput).2.2 =
      some (Diag.remote (ApiError.other "wait failed").msg) :=
  (update_wait_failure_aborts_before_resize envWaitFail upsizeNoRenameInput
      "fr-par-1" "vid1" (ApiError.other "wait failed") rfl (by decide) rfl
      (by decide) (Or.inl rfl) rfl).1

/-- C10: an Update invocation in which neither the name nor `size_in_gb`
changed issues no mutating remote call: its whole issued trace is the
single `GetVolume` performed by the final Read. -/
theorem update_nochange_only_read_get (env : Env) (d : UpdateInput)
    (zone vid : String) (hid : d.state.id = some ((zone, vid) : ZonedID))
    (hn : d.oldName = d.state.name) (hs : d.oldSizeInGb = d.state.sizeInGb) :
    (resourceScalewayInstanceVolumeUpdate env d).1 =
      [RemoteCall.getVolume zone vid true] := by
  simp only [resourceScalewayInstanceVolumeUpdate, hid, if_pos hn,
    updateSizeStep, if_pos hs]
  simp [read_trace_single_get env d.state zone vid hid]

def noChangeInput : UpdateInput :=
  { state := sBase, oldName := "vol-a", oldSizeInGb := 10 }

theorem update_nochange_only_read_get_witness :
    (resourceScalewayInstanceVolumeUpdate baseEnv noChangeInput).1 =
      [RemoteCall.getVolume "fr-par-1" "vid1" true] :=
  update_nochange_only_read_get baseEnv noChangeInput "fr-par-1" "vid1" rfl
    rfl rfl
